import Mathlib

/-!
Verification of the videolooper loop-synthesis engine against its
natural-language specification.

The repository contains three parallel implementations of the engine:

* `src/server/loop-maker.sh` — the bash script (the `sh` prefix below);
* `src/unnamed/part_003` — the `VideoProcessor` Node.js class, a direct
  port of the script (the `vp` prefix below);
* `src/unnamed/part_000` — the Express serverless API with its own inline
  ffmpeg logic (the `part000` prefix below).

Time arithmetic is embedded over `ℚ` (the shell computes with `bc`, the JS
variants with doubles; every comparison the claims exercise is exact linear
arithmetic on small decimal literals).  Fallible external steps (ffmpeg /
ffprobe process invocations) are modelled by boolean success oracles.
-/

/-- A planned segment of the output, as the SegmentPlan of the spec describes
them.  Each constructor carries the source start offset and the duration in
seconds that the corresponding implementation computes; `blend` is the
crossfade clip synthesised by the `xfade` filter, whose output length equals
the fade duration. -/
inductive Seg
  | fullCopy (sourceStart sourceDuration : ℚ)
  | mainBody (sourceStart sourceDuration : ℚ)
  | afterStart (sourceStart sourceDuration : ℚ)
  | beforeStart (sourceStart sourceDuration : ℚ)
  | blend (fadeDuration : ℚ)
deriving DecidableEq, Repr

/-- Duration of a planned segment. -/
def Seg.duration : Seg → ℚ
  | .fullCopy _ dur => dur
  | .mainBody _ dur => dur
  | .afterStart _ dur => dur
  | .beforeStart _ dur => dur
  | .blend f => f

/-- Whether a segment is the whole-source stream copy. -/
def Seg.isFullCopy : Seg → Bool
  | .fullCopy _ _ => true
  | _ => false

/-- Whether a segment is the crossfade blend clip. -/
def Seg.isBlend : Seg → Bool
  | .blend _ => true
  | _ => false

/-- Validation failures of the crossfade planners. -/
inductive ValidationError
  | fadeTooLong
  | fadeNonPositive
deriving DecidableEq, Repr

/-- Crossfade segment planning of `src/server/loop-maker.sh`, crossfade case
(lines 212-369): the zero-fade branch is checked first (line 213); with a
positive fade the script rejects `FADE_DURATION >= ORIGINAL_DURATION / 2`
(lines 259-263) and `FADE_DURATION <= 0` (lines 264-268); with
`START_SECOND = 0` it extracts one main body plus the blend (lines 304-320);
otherwise SEG1 (after start) and SEG3 (before start) are each extracted only
when their computed duration is positive (lines 336, 360). -/
def shPlanCrossfade (d f s : ℚ) : Except ValidationError (List Seg) :=
  if f = 0 then
    if s = 0 then Except.ok [Seg.fullCopy 0 d]
    else Except.ok [Seg.afterStart s (d - s), Seg.beforeStart 0 s]
  else if d / 2 ≤ f then Except.error ValidationError.fadeTooLong
  else if f ≤ 0 then Except.error ValidationError.fadeNonPositive
  else if s = 0 then Except.ok [Seg.mainBody f (d - 2 * f), Seg.blend f]
  else
    Except.ok
      ((if 0 < d - f - s then [Seg.afterStart s (d - f - s)] else []) ++
        [Seg.blend f] ++
        (if 0 < s - f then [Seg.beforeStart f (s - f)] else []))

/-- Crossfade segment planning of `VideoProcessor.createCrossfadeLoop`
(`src/unnamed/part_003`, lines 105-301): it throws when
`parseFloat(fadeDuration) >= duration / 2` (lines 117-123) before the
zero-fade check (line 125); the remaining branches mirror the shell script
(seg1 extracted when `seg1Duration > 0`, line 254; seg3 when
`seg3Duration > 0`, line 278).  Arguments are the parsed numeric values. -/
def vpPlanCrossfade (d f s : ℚ) : Except ValidationError (List Seg) :=
  if d / 2 ≤ f then Except.error ValidationError.fadeTooLong
  else if f = 0 then
    if s = 0 then Except.ok [Seg.fullCopy 0 d]
    else Except.ok [Seg.afterStart s (d - s), Seg.beforeStart 0 s]
  else if s = 0 then Except.ok [Seg.mainBody f (d - 2 * f), Seg.blend f]
  else
    Except.ok
      ((if 0 < d - f - s then [Seg.afterStart s (d - f - s)] else []) ++
        [Seg.blend f] ++
        (if 0 < s - f then [Seg.beforeStart f (s - f)] else []))

/-- Value of a list of decimal digit characters. -/
def digitsVal (l : List Char) : ℕ :=
  l.foldl (fun a c => a * 10 + (c.toNat - 48)) 0

/-- Whitespace test used by the `parseFloat` model. -/
def isSpaceChar (c : Char) : Bool :=
  c = ' ' || c = '\t' || c = '\n' || c = '\r'

/-- The syntactic part of a parsed JavaScript number: sign, integer digits,
fractional digits and the number of fractional digits. -/
structure ParsedNum where
  negative : Bool
  intVal : ℕ
  fracVal : ℕ
  fracLen : ℕ
deriving DecidableEq, Repr

/-- Numeric value of a parsed token. -/
def ParsedNum.toRat (p : ParsedNum) : ℚ :=
  (if p.negative then -1 else 1) * ((p.intVal : ℚ) + (p.fracVal : ℚ) / 10 ^ p.fracLen)

/-- Model of the JavaScript builtin `parseFloat`, syntactic phase, restricted
to the numeric tokens this program passes around: optional leading
whitespace, an optional sign, then decimal digits with an optional
fractional part.  `none` stands for `NaN` (no parsable numeric prefix).
Exponents and `Infinity` are outside the fragment the repository ever
produces and are not modelled. -/
def parseFloatRawChars (l : List Char) : Option ParsedNum :=
  let cs := l.dropWhile isSpaceChar
  let neg : Bool := cs.head? = some '-'
  let cs1 := if cs.head? = some '-' || cs.head? = some '+' then cs.tail else cs
  let intDigits := cs1.takeWhile Char.isDigit
  let rest := cs1.dropWhile Char.isDigit
  let fracDigits :=
    if rest.head? = some '.' then rest.tail.takeWhile Char.isDigit else []
  if intDigits.isEmpty && fracDigits.isEmpty then none
  else some ⟨neg, digitsVal intDigits, digitsVal fracDigits, fracDigits.length⟩

/-- Syntactic `parseFloat` on a string. -/
def parseFloatRaw (str : String) : Option ParsedNum :=
  parseFloatRawChars str.toList

/-- Model of the JavaScript builtin `parseFloat` (see `parseFloatRawChars`). -/
def parseFloat (str : String) : Option ℚ :=
  (parseFloatRaw str).map ParsedNum.toRat

/-- Parameter coercion at the top of `createCrossfadeLoop` in
`src/unnamed/part_000`, line 115: `fadeDuration = parseFloat(fadeDuration)
|| 0.5` — a value that fails to parse (`NaN`) or parses to `0` (both falsy)
is replaced by `0.5`. -/
def jsCoerceFade (raw : String) : ℚ :=
  match parseFloat raw with
  | none => 1 / 2
  | some q => if q = 0 then 1 / 2 else q

/-- Parameter coercion at the top of `createCrossfadeLoop` in
`src/unnamed/part_000`, line 116: `startSecond = parseFloat(startSecond)
|| 0` — an unparsable value becomes `0`. -/
def jsCoerceStart (raw : String) : ℚ :=
  match parseFloat raw with
  | none => 0
  | some q => q

/-- Fade-length handling of `createCrossfadeLoop` in `src/unnamed/part_000`,
lines 151-154: instead of rejecting, `fadeDuration >= videoDuration / 2` is
silently replaced by `videoDuration / 4`. -/
def part000EffectiveFade (d f0 : ℚ) : ℚ :=
  if d / 2 ≤ f0 then d / 4 else f0

/-- Segment planning of `createCrossfadeLoop` in `src/unnamed/part_000`
(lines 216-369), after parameter coercion: with `startSecond === 0` it is
main body plus blend (lines 217-258); with `fadeDuration < startSecond <
duration - fadeDuration` it is seg1, blend and (when `seg3Duration > 0`,
line 291) seg3; every other start second falls to the `else` of line 349
which concatenates the crossfade clip alone. -/
def part000Core (d f0 s : ℚ) : List Seg :=
  if s = 0 then
    [Seg.mainBody (part000EffectiveFade d f0) (d - 2 * part000EffectiveFade d f0),
      Seg.blend (part000EffectiveFade d f0)]
  else if part000EffectiveFade d f0 < s ∧ s < d - part000EffectiveFade d f0 then
    if 0 < s - part000EffectiveFade d f0 then
      [Seg.afterStart s (d - part000EffectiveFade d f0 - s),
        Seg.blend (part000EffectiveFade d f0),
        Seg.beforeStart (part000EffectiveFade d f0) (s - part000EffectiveFade d f0)]
    else
      [Seg.afterStart s (d - part000EffectiveFade d f0 - s),
        Seg.blend (part000EffectiveFade d f0)]
  else [Seg.blend (part000EffectiveFade d f0)]

/-- Full crossfade planning of `src/unnamed/part_000`: raw string parameters
are coerced (lines 114-116) and handed to the core logic. `d` is the probed
video duration. -/
def part000PlanCrossfade (d : ℚ) (fadeRaw startRaw : String) : List Seg :=
  part000Core d (jsCoerceFade fadeRaw) (jsCoerceStart startRaw)

/-- Model of JavaScript `String.prototype.trim` on a character list. -/
def trimChars (l : List Char) : List Char :=
  ((l.dropWhile isSpaceChar).reverse.dropWhile isSpaceChar).reverse

/-- Model of JavaScript `String.prototype.split` with a one-character
separator, on character lists. -/
def splitOnChar (sep : Char) (l : List Char) : List (List Char) :=
  match l with
  | [] => [[]]
  | c :: rest =>
    match splitOnChar sep rest with
    | [] => [[]]
    | h :: t => if c = sep then [] :: h :: t else (c :: h) :: t

/-- Syntactic analysis of the frame-rate token in
`VideoProcessor.getVideoFPS` (`src/unnamed/part_003`, lines 418-437): the
probed output is trimmed; a token containing `/` is split at the first `/`
into numerator and denominator (`const [num, den] = fpsStr.split("/")`); any
other token is handed to `parseFloat` whole. -/
inductive FpsToken
  | rational (num den : Option ParsedNum)
  | plain (v : Option ParsedNum)
deriving DecidableEq, Repr

/-- See `FpsToken`: which lexical shape the probed frame-rate string has. -/
def fpsTokenOf (output : String) : FpsToken :=
  let cs := trimChars output.toList
  if cs.contains '/' then
    match splitOnChar '/' cs with
    | num :: den :: _ => FpsToken.rational (parseFloatRawChars num) (parseFloatRawChars den)
    | _ => FpsToken.rational none none
  else FpsToken.plain (parseFloatRawChars cs)

/-- `VideoProcessor.getVideoFPS` (`src/unnamed/part_003`, lines 418-437),
numeric phase: a `num/den` token is divided (`return num / den`, line 434,
with no error check — `none` models a non-finite JavaScript result); any
other token is `parseFloat(fpsStr) || 30` (line 436): an unparsable or zero
value silently becomes `30`. -/
def getVideoFPS (output : String) : Option ℚ :=
  match fpsTokenOf output with
  | FpsToken.rational (some n) (some dq) =>
      if dq.toRat = 0 then none else some (n.toRat / dq.toRat)
  | FpsToken.rational _ _ => none
  | FpsToken.plain none => some 30
  | FpsToken.plain (some q) => if q.toRat = 0 then some 30 else some q.toRat

/-- Frame-rate conversion of `src/server/loop-maker.sh`, line 209:
`VIDEO_FPS=$(echo "scale=2; $VIDEO_FPS_FRAC" | bc 2>/dev/null || echo "30")`
— when the `bc` conversion fails (`none`) the script silently falls back to
`30`. -/
def shVideoFps (bcResult : Option ℚ) : ℚ :=
  bcResult.getD 30

/-- One attempted invocation of the final concatenation. -/
inductive ConcatAttempt
  | copyAttempt
  | reencodeAttempt
deriving DecidableEq, Repr

/-- Result of the final assembly. -/
inductive AssemblyOutcome
  | assembled
  | assemblyError
deriving DecidableEq, Repr

/-- `VideoProcessor.concatenateVideos` (`src/unnamed/part_003`, lines
353-403): the concat demuxer is first run with `-c copy` (lines 365-380);
on failure the single catch block retries once with re-encoding (lines
381-402); a failure of that retry propagates as the assembly error.  The
booleans are success oracles for the two external invocations; the returned
list records the attempts actually issued, in order. -/
def concatenateVideos (copyOk reencodeOk : Bool) : AssemblyOutcome × List ConcatAttempt :=
  if copyOk then (AssemblyOutcome.assembled, [ConcatAttempt.copyAttempt])
  else if reencodeOk then
    (AssemblyOutcome.assembled, [ConcatAttempt.copyAttempt, ConcatAttempt.reencodeAttempt])
  else
    (AssemblyOutcome.assemblyError, [ConcatAttempt.copyAttempt, ConcatAttempt.reencodeAttempt])

/-- Success oracles for the external ffmpeg/ffprobe invocations of
`src/server/loop-maker.sh` (one field per distinct invocation site). -/
structure ShellEnv where
  durationProbeOk : Bool
  fpsProbeOk : Bool
  extractNofadeAfterOk : Bool
  extractNofadeBeforeOk : Bool
  nofadeConcatOk : Bool
  extractTrueStartOk : Bool
  extractTrueEndOk : Bool
  xfadeOk : Bool
  extractMainOk : Bool
  extractSeg1Ok : Bool
  extractSeg3Ok : Bool
  finalConcatCopyOk : Bool
  finalConcatReencodeOk : Bool
  reverseOk : Bool
  reverseConcatOk : Bool
deriving DecidableEq, Repr

/-- What the script leaves behind as `OUTPUT_FILE`. -/
inductive ShOutput
  | loopFile
  | sourceCopy
  | noOutput
deriving DecidableEq, Repr

/-- Result of the body of one run of `src/server/loop-maker.sh` (everything
between installing the temp-dir trap and exiting): exit status, what the
output file is, and how many ffmpeg (transcoder) invocations were
issued. -/
structure ShBody where
  exitOk : Bool
  output : ShOutput
  ffmpegCalls : ℕ
deriving DecidableEq, Repr

/-- Observable result of one full run of the script: the body's outcome
plus whether `TEMP_DIR` is gone afterwards. -/
structure ShRun where
  exitOk : Bool
  output : ShOutput
  ffmpegCalls : ℕ
  tempDirRemoved : Bool
deriving DecidableEq, Repr

/-- Final concatenation of the shell crossfade case
(`src/server/loop-maker.sh`, lines 375-382).  The script runs under
`set -e` (line 16), and the `-c copy` attempt on line 377 is a standalone
subshell: when it fails, errexit terminates the script right there, before
the `$?` check of line 378 can run, so the re-encode retry of line 380 is
unreachable dead code.  The observable behaviour is therefore: one concat
invocation; success iff the stream copy succeeds; a copy failure exits the
script with no output and no retry.  `callsSoFar` is the number of ffmpeg
invocations issued before this step. -/
def shConcatStep (env : ShellEnv) (callsSoFar : ℕ) : ShBody :=
  if env.finalConcatCopyOk then ⟨true, ShOutput.loopFile, callsSoFar + 1⟩
  else ⟨false, ShOutput.noOutput, callsSoFar + 1⟩

/-- `create_simple_loop` (`src/server/loop-maker.sh`, lines 157-169), run
when the initial duration probe fails (lines 173-177); `set -e` aborts the
script on any ffmpeg failure inside it, and on success the script exits
0. -/
def shSimpleLoop (env : ShellEnv) : ShBody :=
  if env.reverseOk then
    if env.reverseConcatOk then ⟨true, ShOutput.loopFile, 2⟩
    else ⟨false, ShOutput.noOutput, 2⟩
  else ⟨false, ShOutput.noOutput, 1⟩

/-- The `"reverse"|*` case (`src/server/loop-maker.sh`, lines 386-404): if
building the reversed clip fails the script copies the original as the
output and exits 0 (lines 390-394); if the concatenation fails it likewise
copies the original (lines 397-403) and falls through to the verification
block, which finds the output present and reports success. -/
def shReverseCase (env : ShellEnv) : ShBody :=
  if env.reverseOk then
    if env.reverseConcatOk then ⟨true, ShOutput.loopFile, 2⟩
    else ⟨true, ShOutput.sourceCopy, 2⟩
  else ⟨true, ShOutput.sourceCopy, 1⟩

/-- The `"crossfade"` case (`src/server/loop-maker.sh`, lines 198-383),
following the script line by line: FPS probe with hard failure (lines
206-207), the zero-fade branch (lines 212-255), fade validation (lines
258-268), boundary extractions and the xfade filter (lines 273-296), then
either the standard (`START_SECOND = 0`) or the custom-start segment
extraction, and the final concatenation (`shConcatStep`). -/
def shCrossfadeCase (env : ShellEnv) (d f s : ℚ) : ShBody :=
  if env.fpsProbeOk then
    if f = 0 then
      if s = 0 then ⟨true, ShOutput.sourceCopy, 0⟩
      else
        if env.extractNofadeAfterOk then
          if env.extractNofadeBeforeOk then
            if env.nofadeConcatOk then ⟨true, ShOutput.loopFile, 3⟩
            else ⟨false, ShOutput.noOutput, 3⟩
          else ⟨false, ShOutput.noOutput, 2⟩
        else ⟨false, ShOutput.noOutput, 1⟩
    else if d / 2 ≤ f then ⟨false, ShOutput.noOutput, 0⟩
    else if f ≤ 0 then ⟨false, ShOutput.noOutput, 0⟩
    else if env.extractTrueStartOk then
      if env.extractTrueEndOk then
        if env.xfadeOk then
          if s = 0 then
            if env.extractMainOk then shConcatStep env 4
            else ⟨false, ShOutput.noOutput, 4⟩
          else
            if 0 < d - f - s then
              if env.extractSeg1Ok then
                if 0 < s - f then
                  if env.extractSeg3Ok then shConcatStep env 5
                  else ⟨false, ShOutput.noOutput, 5⟩
                else shConcatStep env 4
              else ⟨false, ShOutput.noOutput, 4⟩
            else
              if 0 < s - f then
                if env.extractSeg3Ok then shConcatStep env 4
                else ⟨false, ShOutput.noOutput, 4⟩
              else shConcatStep env 3
        else ⟨false, ShOutput.noOutput, 3⟩
      else ⟨false, ShOutput.noOutput, 2⟩
    else ⟨false, ShOutput.noOutput, 1⟩
  else ⟨false, ShOutput.noOutput, 0⟩

/-- Body of one run of `src/server/loop-maker.sh` after the trap is
installed: a failing duration probe diverts to `create_simple_loop` (lines
173-177); otherwise the `case "$TECHNIQUE"` statement (line 197)
dispatches, with every technique value other than `"crossfade"` matching
the `"reverse"|*` arm. -/
def shBody (env : ShellEnv) (technique : String) (d f s : ℚ) : ShBody :=
  if env.durationProbeOk then
    if technique = "crossfade" then shCrossfadeCase env d f s
    else shReverseCase env
  else shSimpleLoop env

/-- One full run of `src/server/loop-maker.sh`: `TEMP_DIR` is created and
the `trap 'rm -rf "$TEMP_DIR"' EXIT` installed (lines 150-151) before
anything can fail, so whatever the body does and however it exits, the trap
removes the temp directory. -/
def shRun (env : ShellEnv) (technique : String) (d f s : ℚ) : ShRun :=
  ⟨(shBody env technique d f s).exitOk, (shBody env technique d f s).output,
    (shBody env technique d f s).ffmpegCalls, true⟩

/-- Combined success of the two-tier concatenation used by
`VideoProcessor.concatenateVideos`. -/
def vpConcatOk (env : ShellEnv) : Bool :=
  env.finalConcatCopyOk || env.finalConcatReencodeOk

/-- Whether `VideoProcessor.createCrossfadeLoop` (`src/unnamed/part_003`,
lines 105-306) completes without error: validation throws before the temp
directory is created (lines 117-123); the zero-fade copy needs no temp
directory (line 129); `reorderSegments` (lines 308-351) and the crossfade
body (lines 143-305) run their external steps in sequence, aborting on the
first failure. -/
def vpCrossfadeCompleted (env : ShellEnv) (d f s : ℚ) : Bool :=
  if d / 2 ≤ f then false
  else if f = 0 then
    if s = 0 then true
    else env.extractNofadeAfterOk && env.extractNofadeBeforeOk && vpConcatOk env
  else if !(env.extractTrueStartOk && env.extractTrueEndOk && env.xfadeOk) then false
  else if s = 0 then env.extractMainOk && vpConcatOk env
  else
    (if 0 < d - f - s then env.extractSeg1Ok else true) &&
      (if 0 < s - f then env.extractSeg3Ok else true) && vpConcatOk env

/-- `VideoProcessor.createCrossfadeLoop` as observed by its caller:
(completed without error, temp directory still exists afterwards).  The
`finally` of lines 302-305 removes the temp directory on every path that
created one, and the paths that throw earlier never create it. -/
def vpCrossfadeRun (env : ShellEnv) (d f s : ℚ) : Bool × Bool :=
  (vpCrossfadeCompleted env d f s, false)

/-- Cleanup skeleton of `VideoProcessor.createReverseLoop`
(`src/unnamed/part_003`, lines 54-103): the temp directory is created up
front and removed in a `finally`; errors propagate (no copy-original
fallback in this implementation). -/
def vpReverseRun (env : ShellEnv) : Bool × Bool :=
  ((env.reverseOk && env.reverseConcatOk), false)

/-- The technique whitelist of the HTTP layers (`src/unnamed/part_000` line
19, `src/server/server.ts` line 24). -/
def VALID_TECHNIQUES : List String :=
  ["crossfade", "reverse"]

/-- Technique selection of the HTTP layers (`src/unnamed/part_000` lines
393-397 and `src/server/server.ts` lines 39-42, textually identical):
`req.body.technique && VALID_TECHNIQUES.includes(req.body.technique) ?
req.body.technique : "reverse"` — a missing field (`none`), the empty
string (falsy) and any value outside the whitelist all select
`"reverse"`. -/
def selectTechnique : Option String → String
  | none => "reverse"
  | some t => if t ≠ "" ∧ t ∈ VALID_TECHNIQUES then t else "reverse"

/-- Environment in which every external invocation succeeds. -/
def allOkEnv : ShellEnv :=
  ⟨true, true, true, true, true, true, true, true, true, true, true, true, true, true, true⟩

/-- A script-body result in which a failing exit never leaves an output
file behind. -/
def NoOutputOnFail (b : ShBody) : Prop :=
  b.exitOk = false → b.output = ShOutput.noOutput

/-- `NoOutputOnFail` is preserved by branching. -/
theorem noOutputOnFail_ite (c : Prop) [Decidable c] {x y : ShBody}
    (hx : NoOutputOnFail x) (hy : NoOutputOnFail y) : NoOutputOnFail (if c then x else y) := by
  by_cases h : c
  · rwa [if_pos h]
  · rwa [if_neg h]

/-- A successful exit vacuously satisfies `NoOutputOnFail`. -/
theorem noOutputOnFail_true (o : ShOutput) (n : ℕ) : NoOutputOnFail ⟨true, o, n⟩ :=
  fun h => Bool.noConfusion h

/-- A result with no output satisfies `NoOutputOnFail`. -/
theorem noOutputOnFail_noOutput (e : Bool) (n : ℕ) : NoOutputOnFail ⟨e, ShOutput.noOutput, n⟩ :=
  fun _ => rfl

/-- The two-tier final concatenation leaves no output when it fails. -/
theorem shConcatStep_noOutputOnFail (env : ShellEnv) (n : ℕ) :
    NoOutputOnFail (shConcatStep env n) := by
  unfold shConcatStep
  repeat'
    first
      | apply noOutputOnFail_ite
      | exact noOutputOnFail_true _ _
      | exact noOutputOnFail_noOutput _ _

/-- The whole shell crossfade case leaves no output when it fails. -/
theorem shCrossfadeCase_noOutputOnFail (env : ShellEnv) (d f s : ℚ) :
    NoOutputOnFail (shCrossfadeCase env d f s) := by
  unfold shCrossfadeCase
  repeat'
    first
      | apply noOutputOnFail_ite
      | exact shConcatStep_noOutputOnFail env _
      | exact noOutputOnFail_true _ _
      | exact noOutputOnFail_noOutput _ _

/-- Claim C1, counterexample: in the Express API implementation
(`src/unnamed/part_000`) a crossfade request with duration 10 and
`fadeDuration = "6" >= 10/2` is not rejected: the fade is silently clamped
to `10/4 = 5/2` and a full two-segment plan (main body plus blend) is
produced, so transcoder work is issued and an output is assembled. -/
theorem c1_part000_not_rejected :
    part000PlanCrossfade 10 "6" "0" = [Seg.mainBody (5/2) 5, Seg.blend (5/2)] := by
  have h6 : parseFloatRaw "6" = some ⟨false, 6, 0, 0⟩ := by decide
  have h0 : parseFloatRaw "0" = some ⟨false, 0, 0, 0⟩ := by decide
  simp only [part000PlanCrossfade, jsCoerceFade, jsCoerceStart, parseFloat, h6, h0,
    Option.map_some']
  norm_num [ParsedNum.toRat, part000Core, part000EffectiveFade]

/-- Claim C1, amended: for duration `d > 0` and `fadeDuration >= d/2`, the
shell script rejects the request with the fade-too-long validation error and
issues zero ffmpeg invocations, producing no output; the Express API
implementation instead silently replaces the fade by `d/4` and proceeds. -/
theorem c1_shell_rejects_fade_too_long (d f s : ℚ) (env : ShellEnv)
    (hd : 0 < d) (hf : d / 2 ≤ f)
    (h1 : env.durationProbeOk = true) (h2 : env.fpsProbeOk = true) :
    shPlanCrossfade d f s = Except.error ValidationError.fadeTooLong ∧
    shRun env "crossfade" d f s = ⟨false, ShOutput.noOutput, 0, true⟩ ∧
    part000EffectiveFade d f = d / 4 := by
  have hf0 : ¬ f = 0 := by
    intro h
    rw [h] at hf
    linarith
  refine ⟨?_, ?_, ?_⟩
  · unfold shPlanCrossfade
    rw [if_neg hf0, if_pos hf]
  · have hbody : shBody env "crossfade" d f s = ⟨false, ShOutput.noOutput, 0⟩ := by
      unfold shBody shCrossfadeCase
      rw [if_pos h1, if_pos rfl, if_pos h2, if_neg hf0, if_pos hf]
    unfold shRun
    rw [hbody]
  · unfold part000EffectiveFade
    rw [if_pos hf]

/-- Claim C1, witness for the amended theorem at `d = 10`, `f = 6`,
`s = 3`. -/
theorem c1_shell_rejects_fade_too_long_w :
    (0:ℚ) < 10 ∧ (10:ℚ) / 2 ≤ 6 ∧
    (shPlanCrossfade 10 6 3 = Except.error ValidationError.fadeTooLong ∧
     shRun allOkEnv "crossfade" 10 6 3 = ⟨false, ShOutput.noOutput, 0, true⟩ ∧
     part000EffectiveFade 10 6 = 10 / 4) :=
  ⟨by norm_num, by norm_num,
    c1_shell_rejects_fade_too_long 10 6 3 allOkEnv (by norm_num) (by norm_num) rfl rfl⟩

/-- Claim C2: for `0 < fadeDuration < duration/2` and
`fadeDuration < startSecond < duration - fadeDuration`, both the shell
script and the VideoProcessor plan exactly three segments, in playback
order SegmentAfterStart, CrossfadeBlend, SegmentBeforeStart, with durations
`(d - f) - s`, `f` and `s - f`, all positive. -/
theorem c2_three_segment_plan (d f s : ℚ)
    (h1 : 0 < f) (h2 : f < d / 2) (h3 : f < s) (h4 : s < d - f) :
    shPlanCrossfade d f s =
      Except.ok [Seg.afterStart s (d - f - s), Seg.blend f, Seg.beforeStart f (s - f)] ∧
    vpPlanCrossfade d f s =
      Except.ok [Seg.afterStart s (d - f - s), Seg.blend f, Seg.beforeStart f (s - f)] ∧
    0 < d - f - s ∧ 0 < f ∧ 0 < s - f := by
  have hf0 : ¬ f = 0 := ne_of_gt h1
  have hs0 : ¬ s = 0 := ne_of_gt (h1.trans h3)
  have hhalf : ¬ d / 2 ≤ f := not_le.mpr h2
  have hfle : ¬ f ≤ 0 := not_le.mpr h1
  have hseg1 : 0 < d - f - s := by linarith
  have hseg3 : 0 < s - f := by linarith
  refine ⟨?_, ?_, hseg1, h1, hseg3⟩
  · unfold shPlanCrossfade
    rw [if_neg hf0, if_neg hhalf, if_neg hfle, if_neg hs0, if_pos hseg1, if_pos hseg3]
    rfl
  · unfold vpPlanCrossfade
    rw [if_neg hhalf, if_neg hf0, if_neg hs0, if_pos hseg1, if_pos hseg3]
    rfl

/-- Claim C2, witness at the spec's scenario 3: `d = 10`, `f = 1`,
`s = 5`. -/
theorem c2_three_segment_plan_w :
    (0:ℚ) < 1 ∧ (1:ℚ) < 10 / 2 ∧ (1:ℚ) < 5 ∧ (5:ℚ) < 10 - 1 ∧
    (shPlanCrossfade 10 1 5 =
       Except.ok [Seg.afterStart 5 (10 - 1 - 5), Seg.blend 1, Seg.beforeStart 1 (5 - 1)] ∧
     vpPlanCrossfade 10 1 5 =
       Except.ok [Seg.afterStart 5 (10 - 1 - 5), Seg.blend 1, Seg.beforeStart 1 (5 - 1)] ∧
     (0:ℚ) < 10 - 1 - 5 ∧ (0:ℚ) < 1 ∧ (0:ℚ) < 5 - 1) :=
  ⟨by norm_num, by norm_num, by norm_num, by norm_num,
    c2_three_segment_plan 10 1 5 (by norm_num) (by norm_num) (by norm_num) (by norm_num)⟩

/-- Claim C3, counterexample: in the Express API implementation
(`src/unnamed/part_000`), with duration 10, fade 1 and `startSecond = 0.5
<= fadeDuration`, the plan is `[CrossfadeBlend]` alone — SegmentAfterStart
(which would have the positive duration `10 - 1 - 0.5`) is omitted as well,
contradicting the claim that exactly SegmentBeforeStart is omitted. -/
theorem c3_part000_blend_only :
    part000PlanCrossfade 10 "1" "0.5" = [Seg.blend 1] := by
  have hf : parseFloatRaw "1" = some ⟨false, 1, 0, 0⟩ := by decide
  have hs : parseFloatRaw "0.5" = some ⟨false, 0, 5, 1⟩ := by decide
  simp only [part000PlanCrossfade, jsCoerceFade, jsCoerceStart, parseFloat, hf, hs,
    Option.map_some']
  norm_num [ParsedNum.toRat, part000Core, part000EffectiveFade]

/-- Claim C3, amended: in the shell script (validated fade, custom start)
`startSecond <= fadeDuration` omits exactly SegmentBeforeStart,
`startSecond >= duration - fadeDuration` omits exactly SegmentAfterStart,
and no segment with non-positive computed duration is ever extracted; the
Express API implementation instead degenerates to `[CrossfadeBlend]` alone
(without error) for every custom start outside the open interval
`(fadeDuration, duration - fadeDuration)`. -/
theorem c3_side_segment_omission (d f s : ℚ)
    (h1 : 0 < f) (h2 : f < d / 2) (h3 : ¬ s = 0) :
    (s ≤ f → shPlanCrossfade d f s = Except.ok [Seg.afterStart s (d - f - s), Seg.blend f]) ∧
    (d - f ≤ s → shPlanCrossfade d f s = Except.ok [Seg.blend f, Seg.beforeStart f (s - f)]) ∧
    (∀ L, shPlanCrossfade d f s = Except.ok L → ∀ g ∈ L, 0 < g.duration) ∧
    (¬(f < s ∧ s < d - f) → part000Core d f s = [Seg.blend f]) := by
  have hf0 : ¬ f = 0 := ne_of_gt h1
  have hhalf : ¬ d / 2 ≤ f := not_le.mpr h2
  have hfle : ¬ f ≤ 0 := not_le.mpr h1
  have hplan : shPlanCrossfade d f s =
      Except.ok ((if 0 < d - f - s then [Seg.afterStart s (d - f - s)] else []) ++
        [Seg.blend f] ++ (if 0 < s - f then [Seg.beforeStart f (s - f)] else [])) := by
    unfold shPlanCrossfade
    rw [if_neg hf0, if_neg hhalf, if_neg hfle, if_neg h3]
  have hEff : part000EffectiveFade d f = f := by
    unfold part000EffectiveFade
    rw [if_neg hhalf]
  refine ⟨?_, ?_, ?_, ?_⟩
  · intro hle
    rw [hplan, if_pos (by linarith), if_neg (by linarith)]
    rfl
  · intro hge
    rw [hplan, if_neg (by linarith), if_pos (by linarith)]
    rfl
  · intro L hL g hg
    rw [hplan] at hL
    obtain rfl := (Except.ok.inj hL).symm
    rcases List.mem_append.mp hg with hg' | hg'
    · rcases List.mem_append.mp hg' with hg2 | hg2
      · by_cases ha : 0 < d - f - s
        · rw [if_pos ha] at hg2
          rw [List.mem_singleton.mp hg2]
          simpa [Seg.duration] using ha
        · rw [if_neg ha] at hg2
          simp at hg2
      · rw [List.mem_singleton.mp hg2]
        simpa [Seg.duration] using h1
    · by_cases hb : 0 < s - f
      · rw [if_pos hb] at hg'
        rw [List.mem_singleton.mp hg']
        simpa [Seg.duration] using hb
      · rw [if_neg hb] at hg'
        simp at hg'
  · intro hnot
    unfold part000Core
    rw [hEff, if_neg h3, if_neg hnot]

/-- Claim C3, witness at `d = 10`, `f = 1`, `s = 1/2` (a start at or before
the fade length). -/
theorem c3_side_segment_omission_w :
    (0:ℚ) < 1 ∧ (1:ℚ) < 10 / 2 ∧ ¬ ((1:ℚ)/2 = 0) ∧
    (((1:ℚ)/2 ≤ 1 →
        shPlanCrossfade 10 1 (1/2) =
          Except.ok [Seg.afterStart (1/2) (10 - 1 - 1/2), Seg.blend 1]) ∧
     ((10:ℚ) - 1 ≤ 1/2 →
        shPlanCrossfade 10 1 (1/2) =
          Except.ok [Seg.blend 1, Seg.beforeStart 1 (1/2 - 1)]) ∧
     (∀ L, shPlanCrossfade 10 1 (1/2) = Except.ok L → ∀ g ∈ L, 0 < g.duration) ∧
     (¬((1:ℚ) < 1/2 ∧ (1:ℚ)/2 < 10 - 1) → part000Core 10 1 (1/2) = [Seg.blend 1])) :=
  ⟨by norm_num, by norm_num, by norm_num,
    c3_side_segment_omission 10 1 (1/2) (by norm_num) (by norm_num) (by norm_num)⟩

/-- Claim C4: a crossfade request with `fadeDuration = 0` and
`startSecond = 0` plans a single whole-source FullCopy in both the shell
script and the VideoProcessor, and the shell run copies the source to the
output with zero ffmpeg (re-encoding) invocations — a content-wise no-op. -/
theorem c4_zero_fade_zero_start_copy (d : ℚ) (env : ShellEnv)
    (hd : 0 < d) (h1 : env.durationProbeOk = true) (h2 : env.fpsProbeOk = true) :
    shPlanCrossfade d 0 0 = Except.ok [Seg.fullCopy 0 d] ∧
    vpPlanCrossfade d 0 0 = Except.ok [Seg.fullCopy 0 d] ∧
    shRun env "crossfade" d 0 0 = ⟨true, ShOutput.sourceCopy, 0, true⟩ := by
  have hhalf : ¬ d / 2 ≤ (0:ℚ) := not_le.mpr (by positivity)
  refine ⟨?_, ?_, ?_⟩
  · unfold shPlanCrossfade
    rw [if_pos rfl, if_pos rfl]
  · unfold vpPlanCrossfade
    rw [if_neg hhalf, if_pos rfl, if_pos rfl]
  · have hbody : shBody env "crossfade" d 0 0 = ⟨true, ShOutput.sourceCopy, 0⟩ := by
      unfold shBody shCrossfadeCase
      rw [if_pos h1, if_pos rfl, if_pos h2, if_pos rfl, if_pos rfl]
    unfold shRun
    rw [hbody]

/-- Claim C4, witness at `d = 10` with every external step succeeding. -/
theorem c4_zero_fade_zero_start_copy_w :
    (0:ℚ) < 10 ∧
    (shPlanCrossfade 10 0 0 = Except.ok [Seg.fullCopy 0 10] ∧
     vpPlanCrossfade 10 0 0 = Except.ok [Seg.fullCopy 0 10] ∧
     shRun allOkEnv "crossfade" 10 0 0 = ⟨true, ShOutput.sourceCopy, 0, true⟩) :=
  ⟨by norm_num, c4_zero_fade_zero_start_copy 10 allOkEnv (by norm_num) rfl rfl⟩

/-- Claim C5, counterexample: the shell's re-encode retry is dead code.
With the stream-copy concatenation failing and the re-encode invocation
able to succeed (every other oracle true), the shell's final concatenation
still fails with no output after a single concat invocation: `set -e`
(line 16) exits the script at the failed `-c copy` subshell of line 377
before the `$?` check of line 378, so the retry of line 380 never runs —
contradicting the claim that a fast-path failure triggers exactly one
re-encode retry before any error is raised. -/
theorem c5_shell_retry_unreachable :
    shConcatStep { allOkEnv with finalConcatCopyOk := false } 4 =
      ⟨false, ShOutput.noOutput, 5⟩ := by
  rfl

/-- Claim C5, amended: `VideoProcessor.concatenateVideos` attempts the
stream-copy fast path first, retries with re-encoding exactly once if and
only if the fast path fails, and reports the assembly error exactly when
both attempts fail, never issuing a second retry.  The shell script's
final concatenation (lines 375-382), however, never retries: under
`set -e` a fast-path failure exits the script immediately with no output,
its re-encode retry being unreachable, so the shell issues exactly one
concat invocation and succeeds iff the stream copy succeeds. -/
theorem c5_concat_retry_discipline (c r : Bool) (env : ShellEnv) (n : ℕ) :
    (concatenateVideos c r).2 =
      (if c then [ConcatAttempt.copyAttempt]
       else [ConcatAttempt.copyAttempt, ConcatAttempt.reencodeAttempt]) ∧
    ((concatenateVideos c r).1 = AssemblyOutcome.assemblyError ↔ c = false ∧ r = false) ∧
    (shConcatStep env n).ffmpegCalls = n + 1 ∧
    (shConcatStep env n).exitOk = env.finalConcatCopyOk ∧
    (shConcatStep env n).output =
      (if env.finalConcatCopyOk then ShOutput.loopFile else ShOutput.noOutput) := by
  cases c <;> cases r <;> cases hc : env.finalConcatCopyOk <;>
    simp [concatenateVideos, shConcatStep, hc]

/-- Claim C6, counterexample: with every step succeeding except the reverse
extraction, the shell reverse pipeline exits successfully with the output
being a plain copy of the source — a failing pipeline step yields neither a
typed error nor a complete loop, but a silently degraded non-looping
copy. -/
theorem c6_reverse_failure_source_copy :
    shRun { allOkEnv with reverseOk := false } "reverse" 10 (1/2) 0 =
      ⟨true, ShOutput.sourceCopy, 1, true⟩ := by
  rfl

/-- Claim C6, amended: crossfade failures do propagate (a failing crossfade
run exits with an error and leaves no output), but the shell reverse
pipeline degrades instead of failing: it always exits successfully, and its
output is a non-looping copy of the source exactly when the reverse or the
concatenation step fails. -/
theorem c6_failure_output_characterization (env : ShellEnv) (d f s : ℚ)
    (hp : env.durationProbeOk = true) :
    (shRun env "reverse" d f s).exitOk = true ∧
    ((shRun env "reverse" d f s).output = ShOutput.sourceCopy ↔
      ¬(env.reverseOk = true ∧ env.reverseConcatOk = true)) ∧
    ((shRun env "crossfade" d f s).exitOk = false →
      (shRun env "crossfade" d f s).output = ShOutput.noOutput) := by
  have hrev : shBody env "reverse" d f s = shReverseCase env := by
    unfold shBody
    rw [if_pos hp, if_neg (by decide : ¬ ("reverse" : String) = "crossfade")]
  have hcross : shBody env "crossfade" d f s = shCrossfadeCase env d f s := by
    unfold shBody
    rw [if_pos hp, if_pos rfl]
  unfold shRun
  rw [hrev, hcross]
  refine ⟨?_, ?_, ?_⟩
  · unfold shReverseCase
    split_ifs <;> rfl
  · unfold shReverseCase
    cases hr : env.reverseOk <;> cases hc : env.reverseConcatOk <;> simp
  · exact shCrossfadeCase_noOutputOnFail env d f s

/-- Claim C6, witness with all steps succeeding and the probes up. -/
theorem c6_failure_output_characterization_w :
    allOkEnv.durationProbeOk = true ∧
    ((shRun allOkEnv "reverse" 10 1 0).exitOk = true ∧
     ((shRun allOkEnv "reverse" 10 1 0).output = ShOutput.sourceCopy ↔
       ¬(allOkEnv.reverseOk = true ∧ allOkEnv.reverseConcatOk = true)) ∧
     ((shRun allOkEnv "crossfade" 10 1 0).exitOk = false →
       (shRun allOkEnv "crossfade" 10 1 0).output = ShOutput.noOutput)) :=
  ⟨rfl, c6_failure_output_characterization allOkEnv 10 1 0 rfl⟩

/-- Claim C7: whatever the technique, the request parameters and the success
or failure of every external step, one run of the shell script leaves the
temp directory removed (the `trap ... EXIT` of line 151), and the
VideoProcessor crossfade and reverse entry points leave no temp directory
behind (their `finally` blocks). -/
theorem c7_workspace_always_removed (env : ShellEnv) (technique : String) (d f s : ℚ) :
    (shRun env technique d f s).tempDirRemoved = true ∧
    (vpCrossfadeRun env d f s).2 = false ∧
    (vpReverseRun env).2 = false := by
  exact ⟨rfl, rfl, rfl⟩

/-- Claim C8, counterexample: when the probed frame-rate output is empty
(metadata absent), `VideoProcessor.getVideoFPS` silently returns `30`
instead of raising a probe error. -/
theorem c8_absent_fps_defaults_30 : getVideoFPS "" = some 30 := by
  have h : fpsTokenOf "" = FpsToken.plain none := by decide
  unfold getVideoFPS
  rw [h]

/-- Claim C8, amended: a rational `num/den` frame-rate string is divided to
its decimal value (`30000/1001` and `25/1` included), but an absent or
unparseable frame-rate token does not raise an error: `getVideoFPS`
silently substitutes `30`, and the shell's `bc`-failure fallback (line 209)
likewise substitutes `30`. -/
theorem c8_fps_division_and_default (s : String)
    (h : fpsTokenOf s = FpsToken.plain none) :
    getVideoFPS s = some 30 ∧
    getVideoFPS "30000/1001" = some (30000 / 1001) ∧
    getVideoFPS "25/1" = some 25 ∧
    shVideoFps none = 30 := by
  refine ⟨?_, ?_, ?_, rfl⟩
  · unfold getVideoFPS
    rw [h]
  · have ht : fpsTokenOf "30000/1001" =
        FpsToken.rational (some ⟨false, 30000, 0, 0⟩) (some ⟨false, 1001, 0, 0⟩) := by decide
    unfold getVideoFPS
    rw [ht]
    norm_num [ParsedNum.toRat]
  · have ht : fpsTokenOf "25/1" =
        FpsToken.rational (some ⟨false, 25, 0, 0⟩) (some ⟨false, 1, 0, 0⟩) := by decide
    unfold getVideoFPS
    rw [ht]
    norm_num [ParsedNum.toRat]

/-- Claim C8, witness at the unparseable token `"abc"`. -/
theorem c8_fps_division_and_default_w :
    fpsTokenOf "abc" = FpsToken.plain none ∧
    (getVideoFPS "abc" = some 30 ∧
     getVideoFPS "30000/1001" = some (30000 / 1001) ∧
     getVideoFPS "25/1" = some 25 ∧
     shVideoFps none = 30) :=
  ⟨by decide, c8_fps_division_and_default "abc" (by decide)⟩

/-- Claim C9: a technique value that is neither "crossfade" nor "reverse"
(or absent) is mapped to "reverse" by both HTTP layers, and the shell
script's `case` statement runs the same reverse pipeline for it as for
"reverse"; an unknown technique is never rejected. -/
theorem c9_unknown_technique_is_reverse (t : String) (env : ShellEnv) (d f s : ℚ)
    (h1 : t ≠ "crossfade") (h2 : t ≠ "reverse") :
    selectTechnique (some t) = "reverse" ∧
    selectTechnique none = "reverse" ∧
    shRun env t d f s = shRun env "reverse" d f s := by
  have hv : ¬(t ≠ "" ∧ t ∈ VALID_TECHNIQUES) := by
    rintro ⟨-, hm⟩
    simp only [VALID_TECHNIQUES, List.mem_cons, List.not_mem_nil, or_false] at hm
    rcases hm with hm | hm
    · exact h1 hm
    · exact h2 hm
  refine ⟨?_, rfl, ?_⟩
  · show (if t ≠ "" ∧ t ∈ VALID_TECHNIQUES then t else "reverse") = "reverse"
    rw [if_neg hv]
  · unfold shRun shBody
    rw [if_neg h1, if_neg (by decide : ¬ ("reverse" : String) = "crossfade")]

/-- Claim C9, witness at the unknown technique value `"pingpong"`. -/
theorem c9_unknown_technique_is_reverse_w :
    ("pingpong" : String) ≠ "crossfade" ∧ ("pingpong" : String) ≠ "reverse" ∧
    (selectTechnique (some "pingpong") = "reverse" ∧
     selectTechnique none = "reverse" ∧
     shRun allOkEnv "pingpong" 10 1 0 = shRun allOkEnv "reverse" 10 1 0) :=
  ⟨by decide, by decide,
    c9_unknown_technique_is_reverse "pingpong" allOkEnv 10 1 0 (by decide) (by decide)⟩

/-- Claim C10: in the Express API implementation, a fadeDuration that fails
to parse or parses to 0 becomes 0.5 and a startSecond that fails to parse
becomes 0 (before any validation or planning); the coerced fade is never 0,
and every plan this implementation produces contains a crossfade blend and
never a FullCopy — the zero-fade pure-reorder and full-copy behaviours are
unreachable. -/
theorem c10_param_coercion (rawA rawB : String) (d : ℚ) (fr sr : String)
    (hA : parseFloat rawA = none) (hB : parseFloat rawB = some 0) :
    jsCoerceFade rawA = 1 / 2 ∧ jsCoerceStart rawA = 0 ∧ jsCoerceFade rawB = 1 / 2 ∧
    jsCoerceFade fr ≠ 0 ∧
    (part000PlanCrossfade d fr sr).all (fun g => !g.isFullCopy) = true ∧
    (part000PlanCrossfade d fr sr).any Seg.isBlend = true := by
  refine ⟨?_, ?_, ?_, ?_, ?_, ?_⟩
  · unfold jsCoerceFade
    rw [hA]
  · unfold jsCoerceStart
    rw [hA]
  · unfold jsCoerceFade
    rw [hB]
    norm_num
  · cases hp : parseFloat fr with
    | none =>
        simp only [jsCoerceFade, hp]
        norm_num
    | some q =>
        simp only [jsCoerceFade, hp]
        by_cases hq : q = 0
        · rw [if_pos hq]
          norm_num
        · rw [if_neg hq]
          exact hq
  · unfold part000PlanCrossfade part000Core
    split_ifs <;> rfl
  · unfold part000PlanCrossfade part000Core
    split_ifs <;> rfl

/-- Claim C10, witness: `"abc"` fails to parse, `"0"` parses to zero,
plan taken at `d = 10`, `fadeDuration = "0"`, `startSecond = "xyz"`. -/
theorem c10_param_coercion_w :
    parseFloat "abc" = none ∧ parseFloat "0" = some 0 ∧
    (jsCoerceFade "abc" = 1 / 2 ∧ jsCoerceStart "abc" = 0 ∧ jsCoerceFade "0" = 1 / 2 ∧
     jsCoerceFade "0" ≠ 0 ∧
     (part000PlanCrossfade 10 "0" "xyz").all (fun g => !g.isFullCopy) = true ∧
     (part000PlanCrossfade 10 "0" "xyz").any Seg.isBlend = true) := by
  have hA : parseFloat "abc" = none := by
    unfold parseFloat
    rw [show parseFloatRaw "abc" = none from by decide]
    rfl
  have hB : parseFloat "0" = some 0 := by
    unfold parseFloat
    rw [show parseFloatRaw "0" = some ⟨false, 0, 0, 0⟩ from by decide]
    norm_num [ParsedNum.toRat]
  exact ⟨hA, hB, c10_param_coercion "abc" "0" 10 "0" "xyz" hA hB⟩
